import Mathlib

/-!
Verification development for the butterfly-dl download engine.

The repository ships the public C header `include/butterfly.h`, which
declares the library surface (result codes, progress callback, download,
filename, free, version and init entry points) and documents its contract.
The engine behind those declarations is modelled here from the design
specification, and the stated properties of the surface are proved against
that model.
-/

namespace Butterfly

/-- Result codes, from the `ButterflyResult` enum in include/butterfly.h:
BUTTERFLY_SUCCESS, BUTTERFLY_INVALID_PARAMETER, BUTTERFLY_NETWORK_ERROR,
BUTTERFLY_IO_ERROR, BUTTERFLY_UNKNOWN_ERROR. -/
inductive ButterflyResult where
  | success
  | invalidParameter
  | networkError
  | ioError
  | unknownError
deriving DecidableEq, Repr

/-- Modelled from the spec: the routing tiers of the Source Resolver.
A source identifier is classified by depth and shape into the unqualified
root keyword for the full planet dataset, a single top-level region, or a
region/sub-region pair; each tier has its own URL-construction rule. -/
inductive RoutingTier where
  | planet
  | region (r : String)
  | subRegion (r s : String)
deriving DecidableEq, Repr

/-- Splits a character list at every slash, accumulating the current
segment in reverse. -/
def segsAux : List Char → List Char → List String
  | [], acc => [String.mk acc.reverse]
  | c :: cs, acc =>
      if c = '/' then String.mk acc.reverse :: segsAux cs []
      else segsAux cs (c :: acc)

/-- Modelled from the spec: the hierarchy segments of a source identifier,
separated by slashes. -/
def segments (s : String) : List String :=
  segsAux s.toList []

/-- Modelled from the spec: classification of an identifier into a routing
tier. Fails (returns none) when the identifier is empty, has an empty
segment, or has more than two segments, i.e. matches no known tier. -/
def classify (id : String) : Option RoutingTier :=
  match segments id with
  | [r] =>
      if r = "planet" then some .planet
      else if r = "" then none
      else some (.region r)
  | [r, s] =>
      if r = "" then none
      else if s = "" then none
      else some (.subRegion r s)
  | _ => none

/-- Modelled from the spec: a resolved target, pairing the endpoint URL
with the canonical auto-generated filename. The expected size is not
resolved here; it is discovered later by the metadata probe. -/
structure ResolvedTarget where
  endpointUrl : String
  filename : String
deriving DecidableEq, Repr

/-- Modelled from the spec: the per-tier URL-construction rule; different
base host and path conventions are permitted per tier. -/
def tierEndpoint : RoutingTier → String
  | .planet => "https://planet.example.org/planet-latest.osm.pbf"
  | .region r => "https://extracts.example.org/" ++ r ++ "-latest.osm.pbf"
  | .subRegion r s =>
      "https://extracts.example.org/" ++ r ++ "/" ++ s ++ "-latest.osm.pbf"

/-- Modelled from the spec: the canonical filename, produced
deterministically from the identifier alone with no network access. -/
def tierFilename : RoutingTier → String
  | .planet => "planet.osm.pbf"
  | .region r => r ++ ".osm.pbf"
  | .subRegion _ s => s ++ ".osm.pbf"

/-- Modelled from the spec: the Source Resolver. Maps a source identifier
to a resolved target, or fails with InvalidInput (none) on an empty,
malformed or unroutable identifier. Performs no network access. -/
def resolve (id : String) : Option ResolvedTarget :=
  (classify id).map fun t => ⟨tierEndpoint t, tierFilename t⟩

/-- The library function butterfly_get_filename from include/butterfly.h:
returns the auto-generated filename for a source, or NULL (none) on
error, i.e. exactly when resolution fails. -/
def butterfly_get_filename (source : String) : Option String :=
  (resolve source).map (·.filename)

/-- Modelled from the spec: how the network byte source terminates — either
a normal end-of-data signal or a network read error. -/
inductive SourceEnd where
  | eof
  | netError (detail : String)
deriving DecidableEq, Repr

/-- Modelled from the spec: the abstract network byte source consumed by a
Transfer Session — the successive bounded-size chunks it delivers (each
byte a value below 256, chunk sizes bounded by the fixed ceiling) and how
the stream terminates after them. -/
structure ByteSource where
  chunks : List (List Nat)
  terminal : SourceEnd
deriving DecidableEq, Repr

/-- One invocation of the ButterflyProgressCallback from
include/butterfly.h: the downloaded and total byte counts and the
user_data pointer (modelled as a number) passed through to the caller. -/
structure Report where
  downloaded : Nat
  total : Nat
  userData : Nat
deriving DecidableEq, Repr

/-- The progress configuration a caller hands to
butterfly_download_with_progress: whether a callback was supplied, and the
user_data pointer to pass back on every invocation. -/
structure ProgressCfg where
  hasCallback : Bool
  userData : Nat
deriving DecidableEq, Repr

/-- Modelled from the spec: the terminal value of a Transfer Session. The
four anticipated kinds are Success, NetworkFailure, IoFailure and
InvalidInput; `unclassified` stands for any internal outcome not otherwise
classified, which the Result Mapper must fold into the catch-all code. -/
inductive DownloadOutcome where
  | success (bytesWritten : Nat)
  | networkFailure (detail : String)
  | ioFailure (detail : String)
  | invalidInput (detail : String)
  | unclassified (detail : String)
deriving DecidableEq, Repr

/-- Modelled from the spec: the Result Mapper, translating a session
outcome into the closed set of outward result codes; any outcome kind not
explicitly anticipated maps to UnknownError. -/
def mapOutcome : DownloadOutcome → ButterflyResult
  | .success _ => .success
  | .invalidInput _ => .invalidParameter
  | .networkFailure _ => .networkError
  | .ioFailure _ => .ioError
  | _ => .unknownError

/-- Modelled from the spec: the Progress Reporter notification for one
completed chunk write. When no callback was supplied the reporter is a
no-op (no invocation records); when the total size is unknown reporting
degrades to bytes downloaded only (total reported as 0). -/
def reportEvent (cfg : ProgressCfg) (downloaded : Nat) (total : Option Nat) :
    List Report :=
  if cfg.hasCallback then [⟨downloaded, total.getD 0, cfg.userData⟩] else []

/-- What one run of the streaming loop yields: the session outcome, the
bytes written to the sink (the file contents), and the progress callback
invocations made, in order. -/
structure StreamResult where
  outcome : DownloadOutcome
  written : List Nat
  reports : List Report
deriving DecidableEq, Repr

/-- Modelled from the spec: the Streaming loop of a Transfer Session.
Repeatedly pulls one bounded chunk, writes it to the sink (a write at the
failing index `sinkFailAt` transitions to IoFailure), on success advances
the downloaded counter by the chunk length and notifies the reporter. At
end-of-data with a known total, a downloaded count different from the
total is a NetworkFailure (truncated transfer), never a success; a network
read error terminates the stream with NetworkFailure. -/
def runStream (total : Option Nat) (cfg : ProgressCfg) (sinkFailAt : Option Nat)
    (downloaded : Nat) (writeIdx : Nat) :
    List (List Nat) → SourceEnd → StreamResult
  | [], .eof =>
      match total with
      | some t =>
          if downloaded = t then ⟨.success downloaded, [], []⟩
          else ⟨.networkFailure "truncated transfer", [], []⟩
      | none => ⟨.success downloaded, [], []⟩
  | [], .netError d => ⟨.networkFailure d, [], []⟩
  | c :: rest, term =>
      if sinkFailAt = some writeIdx then ⟨.ioFailure "sink write failed", [], []⟩
      else
        let r := runStream total cfg sinkFailAt (downloaded + c.length)
          (writeIdx + 1) rest term
        ⟨r.outcome, c ++ r.written,
          reportEvent cfg (downloaded + c.length) total ++ r.reports⟩

/-- Modelled from the spec: the environment one Transfer Session runs
against — the network byte source, the total size discovered by the
metadata probe (none when not discoverable), whether the destination sink
can be created, and the index of the first failing sink write (none when
the sink never fails). -/
structure Env where
  src : ByteSource
  probedSize : Option Nat
  sinkCreateOk : Bool
  sinkFailAt : Option Nat
deriving DecidableEq, Repr

/-- Modelled from the spec: one Transfer Session. Probes the size, opens
the sink (failure to create it is an IoFailure), then drives the streaming
loop from a zero counter. -/
def runSession (env : Env) (cfg : ProgressCfg) : StreamResult :=
  if env.sinkCreateOk then
    runStream env.probedSize cfg env.sinkFailAt 0 0 env.src.chunks env.src.terminal
  else ⟨.ioFailure "cannot create sink", [], []⟩

/-- Modelled from the spec: the Runtime Supervisor lifecycle — the
process-wide scheduler is either not yet created or initialized. -/
inductive RuntimeState where
  | uninitialized
  | initialized
deriving DecidableEq, Repr

/-- Modelled from the spec: the guarded-once initializer of the Runtime
Supervisor. Creates the scheduler when uninitialized, returns the existing
handle otherwise; reports Success in both cases. -/
def initRuntime (rt : RuntimeState) : RuntimeState × ButterflyResult :=
  match rt with
  | .initialized => (.initialized, .success)
  | .uninitialized => (.initialized, .success)

/-- The library function butterfly_init from include/butterfly.h:
explicit early initialization of the runtime, optional and safe to call
multiple times. -/
def butterfly_init (rt : RuntimeState) : RuntimeState × ButterflyResult :=
  initRuntime rt

/-- Everything one call of the blocking download surface produces: the
outward result code, the destination filename actually used (none when no
file was opened), the file bytes written, the callback invocations made,
and how many network probe operations were performed. -/
structure DownloadRun where
  result : ButterflyResult
  usedFilename : Option String
  written : List Nat
  reports : List Report
  probeCount : Nat
deriving DecidableEq, Repr

/-- The library function butterfly_download_with_progress from
include/butterfly.h, modelled from the spec: ensures the runtime is
initialized (auto-init on first use), resolves the source — an unroutable
identifier is surfaced immediately as InvalidParameter with no network
operation and no retry — then runs one Transfer Session against the
destination path, or the auto-generated filename when none was supplied,
and maps the outcome to a result code. -/
def butterfly_download_with_progress (rt : RuntimeState) (env : Env)
    (source : String) (destPath : Option String) (cfg : ProgressCfg) :
    RuntimeState × DownloadRun :=
  let rt' := (initRuntime rt).1
  match resolve source with
  | none => (rt', ⟨.invalidParameter, none, [], [], 0⟩)
  | some tgt =>
      let sr := runSession env cfg
      (rt', ⟨mapOutcome sr.outcome, some (destPath.getD tgt.filename),
        sr.written, sr.reports, 1⟩)

/-- The library function butterfly_download from include/butterfly.h: the
progress variant with no callback supplied. -/
def butterfly_download (rt : RuntimeState) (env : Env) (source : String)
    (destPath : Option String) : RuntimeState × DownloadRun :=
  butterfly_download_with_progress rt env source destPath ⟨false, 0⟩

/-- The set of live library-allocated strings, by pointer. -/
structure AllocState where
  allocated : List Nat
deriving DecidableEq, Repr

/-- Result of a call to butterfly_free_string: either the allocation state
after the call, or a memory fault. -/
inductive FreeOutcome where
  | ok (st : AllocState)
  | fault
deriving DecidableEq, Repr

/-- The library function butterfly_free_string from include/butterfly.h:
a no-op on NULL (none); releases a live library-allocated string; faults
only on a pointer the library never returned. -/
def butterfly_free_string (p : Option Nat) (st : AllocState) : FreeOutcome :=
  match p with
  | none => .ok st
  | some ptr =>
      if ptr ∈ st.allocated then .ok ⟨st.allocated.erase ptr⟩ else .fault

/-- Modelled from the spec: the fixed per-chunk ceiling of the streaming
loop (8 MiB), a small constant independent of total file size. -/
def chunkCeiling : Nat := 8 * 1024 * 1024

/-- Modelled from the spec: the residency trace of the streaming loop —
for each chunk, the bytes resident after pulling it and after it was
pushed to the sink and released. Only one chunk is ever held. -/
def residentSizes : List (List Nat) → List Nat
  | [] => []
  | c :: rest => c.length :: 0 :: residentSizes rest

/-- Modelled from the spec: the residency trace of a whole session; when
the sink cannot be created no chunk is ever pulled. -/
def sessionResidentTrace (env : Env) : List Nat :=
  if env.sinkCreateOk then residentSizes env.src.chunks else []

/-- The sequence of reporter notifications produced by a run of the
streaming loop that consumes every chunk, starting from downloaded
counter `d`. -/
def progressReports (cfg : ProgressCfg) (total : Option Nat) (d : Nat) :
    List (List Nat) → List Report
  | [] => []
  | c :: rest =>
      reportEvent cfg (d + c.length) total ++
        progressReports cfg total (d + c.length) rest

end Butterfly

namespace Butterfly

example : resolve "" = none := by decide
example : (butterfly_get_filename "europe/belgium") = some "belgium.osm.pbf" := by decide
example : (butterfly_get_filename "planet") = some "planet.osm.pbf" := by decide
example : resolve "a/b/c" = none := by decide
example : resolve "europe/" = none := by decide

example :
    runSession ⟨⟨[[7, 8]], .eof⟩, some 2, true, none⟩ ⟨true, 5⟩ =
      ⟨.success 2, [7, 8], [⟨2, 2, 5⟩]⟩ := by decide

example :
    runSession ⟨⟨[[7, 8]], .eof⟩, some 5, true, none⟩ ⟨true, 5⟩ =
      ⟨.networkFailure "truncated transfer", [7, 8], [⟨2, 5, 5⟩]⟩ := by decide

/-- With no sink failure and a normal end of data, the outcome of the
streaming loop is success exactly when the accumulated count matches the
known total, and a mismatch is the truncated-transfer network failure. -/
theorem runStream_eof_outcome (t : Nat) (cfg : ProgressCfg) :
    ∀ (chunks : List (List Nat)) (d i : Nat),
      (runStream (some t) cfg none d i chunks .eof).outcome =
        if d + (chunks.map List.length).sum = t then
          .success (d + (chunks.map List.length).sum)
        else .networkFailure "truncated transfer" := by
  intro chunks
  induction chunks with
  | nil => intro d i; by_cases h : d = t <;> simp [runStream, h]
  | cons c rest ih =>
      intro d i
      simp only [runStream, List.map_cons, List.sum_cons]
      rw [ih (d + c.length) (i + 1)]
      simp [Nat.add_assoc]

/-- Every report the streaming loop makes carries a downloaded count at
least the counter it started from. -/
theorem runStream_reports_ge (total : Option Nat) (cfg : ProgressCfg)
    (f : Option Nat) :
    ∀ (chunks : List (List Nat)) (term : SourceEnd) (d i : Nat),
      ∀ x ∈ (runStream total cfg f d i chunks term).reports.map Report.downloaded,
        d ≤ x := by
  intro chunks
  induction chunks with
  | nil =>
      intro term d i x hx
      cases term with
      | eof =>
          cases total with
          | none => simp [runStream] at hx
          | some t =>
              by_cases h : d = t <;> simp [runStream, h] at hx
      | netError s => simp [runStream] at hx
  | cons c rest ih =>
      intro term d i x hx
      by_cases hf : f = some i
      · simp [runStream, hf] at hx
      · simp only [runStream, hf, if_false, List.map_append, List.mem_append] at hx
        rcases hx with hx | hx
        · by_cases hc : cfg.hasCallback <;> simp [reportEvent, hc] at hx
          omega
        · exact le_trans (Nat.le_add_right d c.length) (ih term (d + c.length) (i + 1) x hx)

/-- The downloaded counts reported by the streaming loop are
non-decreasing between successive reports. -/
theorem runStream_reports_chain (total : Option Nat) (cfg : ProgressCfg)
    (f : Option Nat) :
    ∀ (chunks : List (List Nat)) (term : SourceEnd) (d i : Nat),
      List.Chain' (· ≤ ·)
        ((runStream total cfg f d i chunks term).reports.map Report.downloaded) := by
  intro chunks
  induction chunks with
  | nil =>
      intro term d i
      cases term with
      | eof =>
          cases total with
          | none => simp [runStream]
          | some t => by_cases h : d = t <;> simp [runStream, h]
      | netError s => simp [runStream]
  | cons c rest ih =>
      intro term d i
      by_cases hf : f = some i
      · simp [runStream, hf]
      · simp only [runStream, hf, if_false, List.map_append]
        by_cases hc : cfg.hasCallback
        · simp only [reportEvent, hc, if_true, List.map_cons, List.map_nil,
            List.singleton_append]
          rw [List.chain'_cons']
          refine ⟨?_, ih term (d + c.length) (i + 1)⟩
          intro b hb
          exact runStream_reports_ge total cfg f rest term (d + c.length) (i + 1) b
            (List.mem_of_mem_head? hb)
        · simpa [reportEvent, hc] using ih term (d + c.length) (i + 1)

/-- When no callback is supplied the streaming loop makes no reporter
calls at all. -/
theorem runStream_no_callback (total : Option Nat) (cfg : ProgressCfg)
    (f : Option Nat) (hc : cfg.hasCallback = false) :
    ∀ (chunks : List (List Nat)) (term : SourceEnd) (d i : Nat),
      (runStream total cfg f d i chunks term).reports = [] := by
  intro chunks
  induction chunks with
  | nil =>
      intro term d i
      cases term with
      | eof =>
          cases total with
          | none => simp [runStream]
          | some t => by_cases h : d = t <;> simp [runStream, h]
      | netError s => simp [runStream]
  | cons c rest ih =>
      intro term d i
      by_cases hf : f = some i
      · simp [runStream, hf]
      · simp [runStream, hf, reportEvent, hc, ih term (d + c.length) (i + 1)]

/-- A successful run of the streaming loop consumed every chunk: the file
written is the concatenation of all chunks, the reports are the full
notification sequence, and the byte count grew by the total chunk
length. -/
theorem runStream_success_shape (total : Option Nat) (cfg : ProgressCfg)
    (f : Option Nat) :
    ∀ (chunks : List (List Nat)) (term : SourceEnd) (d i n : Nat),
      (runStream total cfg f d i chunks term).outcome = .success n →
        (runStream total cfg f d i chunks term).written = chunks.flatten ∧
        (runStream total cfg f d i chunks term).reports =
          progressReports cfg total d chunks ∧
        n = d + (chunks.map List.length).sum := by
  intro chunks
  induction chunks with
  | nil =>
      intro term d i n h
      cases term with
      | eof =>
          cases total with
          | none =>
              simp only [runStream] at h
              cases h
              simp [runStream, progressReports]
          | some t =>
              by_cases hd : d = t
              · simp only [runStream, hd, if_pos rfl] at h
                cases h
                simp [runStream, hd, progressReports]
              · simp [runStream, hd] at h
      | netError s => simp [runStream] at h
  | cons c rest ih =>
      intro term d i n h
      by_cases hf : f = some i
      · simp [runStream, hf] at h
      · simp only [runStream, hf, if_false] at h ⊢
        obtain ⟨hw, hr, hn⟩ := ih term (d + c.length) (i + 1) n h
        refine ⟨?_, ?_, ?_⟩
        · simp [hw]
        · simp [hr, progressReports]
        · simp only [List.map_cons, List.sum_cons]
          omega

/-- When a callback is supplied and at least one chunk was streamed, the
last reported downloaded count is the initial counter plus the total chunk
length. -/
theorem progressReports_last (cfg : ProgressCfg) (total : Option Nat)
    (hc : cfg.hasCallback = true) :
    ∀ (chunks : List (List Nat)) (d : Nat), chunks ≠ [] →
      ((progressReports cfg total d chunks).map Report.downloaded).getLast? =
        some (d + (chunks.map List.length).sum) := by
  intro chunks
  induction chunks with
  | nil => intro d h; exact absurd rfl h
  | cons c rest ih =>
      intro d _
      by_cases hr : rest = []
      · subst hr
        simp [progressReports, reportEvent, hc]
      · have hlast := ih (d + c.length) hr
        simp only [progressReports, reportEvent, hc, if_true,
          List.singleton_append, List.map_cons, List.sum_cons]
        obtain ⟨c2, rest2, rfl⟩ := List.exists_cons_of_ne_nil hr
        simp only [progressReports, reportEvent, hc, if_true,
          List.singleton_append, List.map_cons] at hlast ⊢
        rw [List.getLast?_cons_cons, hlast]
        congr 1
        simp only [List.map_cons, List.sum_cons]
        omega

/-- Every report the streaming loop makes carries the user_data pointer of
the supplied progress configuration. -/
theorem runStream_reports_userData (total : Option Nat) (cfg : ProgressCfg)
    (f : Option Nat) :
    ∀ (chunks : List (List Nat)) (term : SourceEnd) (d i : Nat),
      ∀ r ∈ (runStream total cfg f d i chunks term).reports,
        r.userData = cfg.userData := by
  intro chunks
  induction chunks with
  | nil =>
      intro term d i r hr
      cases term with
      | eof =>
          cases total with
          | none => simp [runStream] at hr
          | some t => by_cases h : d = t <;> simp [runStream, h] at hr
      | netError s => simp [runStream] at hr
  | cons c rest ih =>
      intro term d i r hr
      by_cases hf : f = some i
      · simp [runStream, hf] at hr
      · simp only [runStream, hf, if_false, List.mem_append] at hr
        rcases hr with hr | hr
        · by_cases hc : cfg.hasCallback <;> simp [reportEvent, hc] at hr
          simp [hr]
        · exact ih term (d + c.length) (i + 1) r hr

/-- Residency bound for the streaming loop trace: when every delivered
chunk is within the bound, so is every resident size. -/
theorem residentSizes_le (bound : Nat) :
    ∀ (chunks : List (List Nat)), (∀ c ∈ chunks, c.length ≤ bound) →
      ∀ m ∈ residentSizes chunks, m ≤ bound := by
  intro chunks
  induction chunks with
  | nil => intro _ m hm; simp [residentSizes] at hm
  | cons c rest ih =>
      intro h m hm
      simp only [residentSizes, List.mem_cons] at hm
      rcases hm with rfl | rfl | hm
      · exact h c (List.mem_cons_self c rest)
      · exact Nat.zero_le bound
      · exact ih (fun x hx => h x (List.mem_cons_of_mem _ hx)) m hm

/-- Claim C1: for every valid source identifier, butterfly_get_filename
produces its result deterministically from the identifier alone with no
network access — the filename the download surface uses is independent of
the network environment, the runtime state and the progress configuration
— and it is identical to the filename actually used by a download call for
the same identifier when no destination path is supplied. -/
theorem C1_get_filename_matches_download (source : String)
    (h : (resolve source).isSome) :
    (∀ (env env2 : Env) (rt rt2 : RuntimeState) (cfg cfg2 : ProgressCfg),
      (butterfly_download_with_progress rt env source none cfg).2.usedFilename =
        (butterfly_download_with_progress rt2 env2 source none cfg2).2.usedFilename) ∧
    (∀ (env : Env) (rt : RuntimeState) (cfg : ProgressCfg),
      (butterfly_download_with_progress rt env source none cfg).2.usedFilename =
        butterfly_get_filename source) := by
  obtain ⟨tgt, htgt⟩ := Option.isSome_iff_exists.mp h
  constructor
  · intro env env2 rt rt2 cfg cfg2
    simp [butterfly_download_with_progress, htgt]
  · intro env rt cfg
    simp [butterfly_download_with_progress, butterfly_get_filename, htgt]

/-- Witness for C1 at the identifier europe/belgium. -/
theorem C1_witness :
    (butterfly_download_with_progress .uninitialized
        ⟨⟨[[1]], .eof⟩, none, true, none⟩ "europe/belgium" none
        ⟨false, 0⟩).2.usedFilename =
      butterfly_get_filename "europe/belgium" :=
  (C1_get_filename_matches_download "europe/belgium" (by decide)).2
    ⟨⟨[[1]], .eof⟩, none, true, none⟩ .uninitialized ⟨false, 0⟩

/-- Claim C2: when the total size was discovered and the byte stream ends
with a downloaded count different from the total, the session outcome is
the truncated-transfer NetworkFailure, the download result is
NetworkError, and the outcome is never Success. -/
theorem C2_truncated_never_success (env : Env) (cfg : ProgressCfg) (t : Nat)
    (hp : env.probedSize = some t) (hterm : env.src.terminal = .eof)
    (hsink : env.sinkCreateOk = true) (hfail : env.sinkFailAt = none)
    (hmis : (env.src.chunks.map List.length).sum ≠ t) :
    mapOutcome (runSession env cfg).outcome = .networkError ∧
    (∀ n, (runSession env cfg).outcome ≠ .success n) ∧
    (∀ (rt : RuntimeState) (source : String) (dp : Option String)
        (tgt : ResolvedTarget), resolve source = some tgt →
      (butterfly_download_with_progress rt env source dp cfg).2.result =
        .networkError) := by
  have hrun : runSession env cfg =
      runStream (some t) cfg none 0 0 env.src.chunks .eof := by
    unfold runSession
    rw [if_pos hsink, hp, hfail, hterm]
  have h := runStream_eof_outcome t cfg env.src.chunks 0 0
  rw [if_neg (by simpa using hmis)] at h
  refine ⟨?_, ?_, ?_⟩
  · rw [hrun, h]; rfl
  · intro n
    rw [hrun, h]
    simp
  · intro rt source dp tgt hres
    simp only [butterfly_download_with_progress, hres]
    rw [hrun, h]
    rfl

/-- Witness for C2: a two-byte stream against a probed size of five. -/
theorem C2_witness :
    mapOutcome (runSession ⟨⟨[[1, 2]], .eof⟩, some 5, true, none⟩
        ⟨true, 0⟩).outcome = .networkError ∧
    (runSession ⟨⟨[[1, 2]], .eof⟩, some 5, true, none⟩
        ⟨true, 0⟩).outcome ≠ .success 2 ∧
    (butterfly_download_with_progress .initialized
        ⟨⟨[[1, 2]], .eof⟩, some 5, true, none⟩ "planet" none
        ⟨true, 0⟩).2.result = .networkError :=
  have h := C2_truncated_never_success ⟨⟨[[1, 2]], .eof⟩, some 5, true, none⟩
    ⟨true, 0⟩ 5 rfl rfl rfl rfl (by decide)
  ⟨h.1, h.2.1 2, h.2.2 .initialized "planet" none
    ⟨"https://planet.example.org/planet-latest.osm.pbf", "planet.osm.pbf"⟩
    (by decide)⟩

/-- Claim C4: the Result Mapper sends every DownloadOutcome into the
closed five-element set of result codes, and any outcome kind not
explicitly anticipated maps to UnknownError, never to a value outside the
set. -/
theorem C4_result_mapper_closed (o : DownloadOutcome) :
    mapOutcome o ∈ [ButterflyResult.success, .invalidParameter,
      .networkError, .ioError, .unknownError] ∧
    (∀ d, mapOutcome (.unclassified d) = .unknownError) := by
  refine ⟨?_, fun d => rfl⟩
  cases o <;> simp [mapOutcome]

/-- Claim C5: a source identifier that is empty, malformed or unroutable
fails resolution, and download surfaces InvalidParameter immediately — no
probe, no bytes written, no reports, hence nothing retried; in particular
the empty identifier does. -/
theorem C5_invalid_input_immediate (rt : RuntimeState) (env : Env)
    (cfg : ProgressCfg) (dp : Option String) (source : String)
    (h : resolve source = none) :
    (butterfly_download_with_progress rt env source dp cfg).2 =
      ⟨.invalidParameter, none, [], [], 0⟩ ∧
    resolve "" = none ∧
    (butterfly_download_with_progress rt env "" dp cfg).2.result =
      .invalidParameter := by
  have he : resolve "" = none := by decide
  refine ⟨?_, he, ?_⟩
  · simp [butterfly_download_with_progress, h]
  · simp [butterfly_download_with_progress, he]

/-- Witness for C5 at the malformed identifier with an empty segment. -/
theorem C5_witness :
    (butterfly_download_with_progress .initialized
        ⟨⟨[], .eof⟩, none, true, none⟩ "a//b" none ⟨false, 0⟩).2 =
      ⟨.invalidParameter, none, [], [], 0⟩ :=
  (C5_invalid_input_immediate .initialized ⟨⟨[], .eof⟩, none, true, none⟩
    ⟨false, 0⟩ none "a//b" (by decide)).1

/-- Claim C6: butterfly_init is idempotent — any number of calls, in any
order relative to downloads, is safe, returns Success and leaves the
Runtime Supervisor in the same initialized state as calling it once — and
initialization is performed automatically on first use by the download
surface when init was never called. -/
theorem C6_init_idempotent (rt : RuntimeState) (env : Env) (source : String)
    (dp : Option String) (cfg : ProgressCfg) :
    butterfly_init (butterfly_init rt).1 = butterfly_init rt ∧
    (butterfly_init rt).1 = .initialized ∧
    (butterfly_init rt).2 = .success ∧
    (butterfly_download_with_progress rt env source dp cfg).1 =
      .initialized ∧
    butterfly_download_with_progress (butterfly_init rt).1 env source dp cfg =
      butterfly_download_with_progress rt env source dp cfg := by
  have h4 : ∀ rt0 : RuntimeState,
      (butterfly_download_with_progress rt0 env source dp cfg).1 =
        .initialized := by
    intro rt0
    cases hres : resolve source <;> cases rt0 <;>
      simp [butterfly_download_with_progress, hres, initRuntime]
  refine ⟨?_, ?_, ?_, h4 rt, ?_⟩
  · cases rt <;> rfl
  · cases rt <;> rfl
  · cases rt <;> rfl
  · cases rt <;> rfl

/-- Claim C8: butterfly_free_string on NULL is a safe no-op, and on any
string pointer previously returned by the library it releases the string
and completes without fault. -/
theorem C8_free_string_safe (st : AllocState) (p : Nat)
    (h : p ∈ st.allocated) :
    butterfly_free_string none st = .ok st ∧
    butterfly_free_string (some p) st = .ok ⟨st.allocated.erase p⟩ :=
  ⟨rfl, by simp [butterfly_free_string, h]⟩

/-- Witness for C8 on a heap holding two library strings. -/
theorem C8_witness :
    butterfly_free_string none ⟨[4, 7]⟩ = .ok ⟨[4, 7]⟩ ∧
    butterfly_free_string (some 7) ⟨[4, 7]⟩ = .ok ⟨[4]⟩ :=
  have h := C8_free_string_safe ⟨[4, 7]⟩ 7 (by decide)
  ⟨h.1, h.2.trans (by decide)⟩

/-- Claim C9: butterfly_get_filename signals failure by returning NULL
(none) exactly when resolution of the identifier fails, and on success
returns the resolved target filename. -/
theorem C9_get_filename_null_on_error (source : String) :
    (butterfly_get_filename source = none ↔ resolve source = none) ∧
    (∀ tgt : ResolvedTarget, resolve source = some tgt →
      butterfly_get_filename source = some tgt.filename) := by
  cases h : resolve source with
  | none =>
      refine ⟨by simp [butterfly_get_filename, h], ?_⟩
      intro tgt htgt
      cases htgt
  | some tgt =>
      refine ⟨by simp [butterfly_get_filename, h], ?_⟩
      intro tgt2 htgt
      cases htgt
      simp [butterfly_get_filename, h]

/-- Witness for C9 at the planet identifier. -/
theorem C9_witness :
    butterfly_get_filename "planet" =
      some (ResolvedTarget.mk
        "https://planet.example.org/planet-latest.osm.pbf"
        "planet.osm.pbf").filename :=
  (C9_get_filename_null_on_error "planet").2
    ⟨"https://planet.example.org/planet-latest.osm.pbf", "planet.osm.pbf"⟩
    (by decide)

/-- Claim C10: every progress callback invocation of a download session
receives exactly the user_data pointer the caller supplied, unchanged
across all invocations of that session. -/
theorem C10_user_data_preserved (rt : RuntimeState) (env : Env)
    (source : String) (dp : Option String) (cfg : ProgressCfg) :
    ∀ r ∈ (butterfly_download_with_progress rt env source dp cfg).2.reports,
      r.userData = cfg.userData := by
  intro r hr
  cases h : resolve source with
  | none => simp [butterfly_download_with_progress, h] at hr
  | some tgt =>
      simp only [butterfly_download_with_progress, h] at hr
      unfold runSession at hr
      by_cases hs : env.sinkCreateOk = true
      · rw [if_pos hs] at hr
        exact runStream_reports_userData _ _ _ _ _ _ _ r hr
      · rw [if_neg hs] at hr
        simp at hr

/-- Witness for C10: the one report of a two-byte session carries the
supplied user_data value five. -/
theorem C10_user_data_w : (Report.mk 2 2 5).userData = 5 :=
  C10_user_data_preserved .initialized ⟨⟨[[7, 8]], .eof⟩, some 2, true, none⟩
    "planet" none ⟨true, 5⟩ ⟨2, 2, 5⟩ (by decide)

/-- Claim C3: for every session the downloaded values passed to the
progress callback are monotonically non-decreasing between successive
invocations; on a session ending in Success the final reported value
equals the byte length of the written file; and when no callback is
supplied the reporter performs no calls. -/
theorem C3_progress_reporter (env : Env) (cfg : ProgressCfg) (n : Nat) :
    List.Chain' (· ≤ ·)
      ((runSession env cfg).reports.map Report.downloaded) ∧
    ((runSession env cfg).outcome = .success n →
      (runSession env cfg).reports ≠ [] →
      ((runSession env cfg).reports.map Report.downloaded).getLast? =
        some (runSession env cfg).written.length) ∧
    (cfg.hasCallback = false → (runSession env cfg).reports = []) := by
  by_cases hsink : env.sinkCreateOk = true
  · have hrun : runSession env cfg =
        runStream env.probedSize cfg env.sinkFailAt 0 0 env.src.chunks
          env.src.terminal := by
      unfold runSession
      rw [if_pos hsink]
    rw [hrun]
    refine ⟨runStream_reports_chain _ _ _ _ _ _ _, ?_, ?_⟩
    · intro hs hne
      obtain ⟨hw, hr, hn⟩ := runStream_success_shape _ _ _ _ _ _ _ _ hs
      by_cases hc : cfg.hasCallback = true
      · by_cases hch : env.src.chunks = []
        · rw [hr, hch] at hne
          simp [progressReports] at hne
        · rw [hr, hw,
            progressReports_last cfg env.probedSize hc env.src.chunks 0 hch]
          simp [List.length_flatten]
      · have hnil := runStream_no_callback env.probedSize cfg env.sinkFailAt
          (by simpa using hc) env.src.chunks env.src.terminal 0 0
        exact absurd hnil hne
    · intro hc
      exact runStream_no_callback _ _ _ hc _ _ _ _
  · have hrun : runSession env cfg = ⟨.ioFailure "cannot create sink", [], []⟩ := by
      unfold runSession
      rw [if_neg hsink]
    rw [hrun]
    refine ⟨by simp, ?_, fun _ => rfl⟩
    intro hs hne
    simp at hs

/-- Witness for C3: a two-byte successful session with a callback makes a
final report equal to the file length, and the same session without a
callback makes none. -/
theorem C3_witness :
    ((runSession ⟨⟨[[7, 8]], .eof⟩, some 2, true, none⟩
        ⟨true, 5⟩).reports.map Report.downloaded).getLast? =
      some (runSession ⟨⟨[[7, 8]], .eof⟩, some 2, true, none⟩
        ⟨true, 5⟩).written.length ∧
    (runSession ⟨⟨[[7, 8]], .eof⟩, some 2, true, none⟩ ⟨false, 5⟩).reports =
      [] :=
  ⟨(C3_progress_reporter ⟨⟨[[7, 8]], .eof⟩, some 2, true, none⟩ ⟨true, 5⟩
      2).2.1 (by decide) (by decide),
   (C3_progress_reporter ⟨⟨[[7, 8]], .eof⟩, some 2, true, none⟩ ⟨false, 5⟩
      0).2.2 rfl⟩

/-- Claim C7: the residency of a download session is bounded by the fixed
per-chunk ceiling — at most one bounded chunk resident at a time, no
full-file buffering — and that ceiling is a constant well under 1 GiB,
independent of the total file size. -/
theorem C7_bounded_memory (env : Env)
    (h : ∀ c ∈ env.src.chunks, c.length ≤ chunkCeiling) :
    (∀ m ∈ sessionResidentTrace env, m ≤ chunkCeiling) ∧
    chunkCeiling < 2 ^ 30 := by
  constructor
  · intro m hm
    unfold sessionResidentTrace at hm
    by_cases hs : env.sinkCreateOk = true
    · rw [if_pos hs] at hm
      exact residentSizes_le chunkCeiling env.src.chunks h m hm
    · rw [if_neg hs] at hm
      simp at hm
  · decide

/-- Witness for C7: a three-byte chunk stays within the ceiling. -/
theorem C7_witness : 3 ≤ chunkCeiling ∧ chunkCeiling < 2 ^ 30 :=
  have h := C7_bounded_memory ⟨⟨[[9, 9, 9]], .eof⟩, some 3, true, none⟩
    (by decide)
  ⟨h.1 3 (by decide), h.2⟩

end Butterfly
